import Mathlib

/-!
Verification development for the go-openrouter HTTP client library.

The embedding mirrors `client.go` (request execution pipeline: headers,
transport dispatch, response classification, retry with backoff) and
`chat.go` (`CreateChatCompletion`).  Go's `encoding/json` decoding into the
library's `ErrorResponse` struct is modelled by an explicit JSON value type
and a decoder following the struct tags used by the library; network and
caller-supplied behaviour (the transport, the caller's destination shape,
the random source) are oracle parameters, matching their role as external
collaborators of the pipeline.
-/

namespace OpenRouter

/-- JSON values, as produced by parsing a response body. -/
inductive Json where
  | null : Json
  | str (s : String) : Json
  | num (n : Int) : Json
  | bool (b : Bool) : Json
  | arr (elems : List Json) : Json
  | obj (fields : List (String × Json)) : Json

/-- Looks up a key in a JSON object's field list.  Go's `encoding/json`
lets a later duplicate key overwrite an earlier one, so the last match wins. -/
def getField (fields : List (String × Json)) (key : String) : Option Json :=
  (fields.reverse.find? (fun p => p.1 = key)).map (fun p => p.2)

/-- The `APIError` payload type: only the fields `client.go` reads are
modelled (`Message`, and `HTTPStatusCode`, which `handleErrorResp` fills in
from the transport response, never from the body). -/
structure APIError where
  message : String
  httpStatusCode : Nat
deriving DecidableEq, Repr

/-- The `ErrorResponse` envelope: a JSON body optionally carrying an
`error` object.  The Go field is a pointer (`*APIError`), modelled by
`Option`. -/
structure ErrorResponse where
  error : Option APIError
deriving DecidableEq, Repr

/-- State of a response body as the client sees it: a nil body, a body whose
read fails, or readable bytes that either parse to a JSON value or fail to
parse (`content none`). -/
inductive BodyState where
  | nilBody : BodyState
  | unreadable (msg : String) : BodyState
  | content (parsed : Option Json) : BodyState

/-- Decoding a JSON object into `APIError`, following `encoding/json`:
a missing or `null` field leaves the zero value; a `message` field of a
non-string type records a decode error while leaving `Message` at `""`. -/
def unmarshalAPIError (fields : List (String × Json)) : Option String × APIError :=
  match getField fields "message" with
  | none => (none, ⟨"", 0⟩)
  | some Json.null => (none, ⟨"", 0⟩)
  | some (Json.str s) => (none, ⟨s, 0⟩)
  | some _ => (some "json: cannot unmarshal value into field message of type string", ⟨"", 0⟩)

/-- Decoding a body into `ErrorResponse` (`json.Unmarshal` in `doRequest`,
`json.NewDecoder(..).Decode` in `handleErrorResp`): returns the decode error
(if any) together with the struct as left by the decoder.  As in Go, a
top-level `null` decodes to the zero struct, and a wrongly-typed `error`
field allocates the pointer before the type error is recorded. -/
def unmarshalErrorResponse (body : BodyState) : Option String × ErrorResponse :=
  match body with
  | BodyState.nilBody => (some "EOF", ⟨none⟩)
  | BodyState.unreadable msg => (some msg, ⟨none⟩)
  | BodyState.content none => (some "invalid JSON", ⟨none⟩)
  | BodyState.content (some j) =>
    match j with
    | Json.null => (none, ⟨none⟩)
    | Json.obj fields =>
      match getField fields "error" with
      | none => (none, ⟨none⟩)
      | some Json.null => (none, ⟨none⟩)
      | some (Json.obj efields) =>
        let r := unmarshalAPIError efields
        (r.1, ⟨some r.2⟩)
      | some _ =>
        (some "json: cannot unmarshal value into field error of type APIError", ⟨some ⟨"", 0⟩⟩)
    | _ => (some "json: cannot unmarshal value into ErrorResponse", ⟨none⟩)

/-- The inner cause stored in a `RequestError` (`handleErrorResp`):
the raw decode failure, the decoded-but-partial `*APIError`, or nothing. -/
inductive ReqErrCause where
  | decodeFailure (msg : String) : ReqErrCause
  | apiErr (e : APIError) : ReqErrCause
  | noCause : ReqErrCause
deriving DecidableEq, Repr

/-- Every error value one `doRequest` attempt can return, one constructor
per construction site in `client.go`. -/
inductive AttemptError where
  | transportFailed (inner : String) : AttemptError
  | emptyBody : AttemptError
  | readFailed (inner : String) : AttemptError
  | apiErrorMsg (msg : String) : AttemptError
  | requestError (httpStatusCode : Nat) (cause : ReqErrCause) : AttemptError
  | apiError (e : APIError) : AttemptError
  | decodeError (msg : String) : AttemptError
deriving DecidableEq, Repr

/-- Every error value `sendRequest` can return.  With the early `return err`
commented out in the source, the loop can only exit successfully, on a clone
failure, or by exhausting all attempts; `retryExhausted` wraps `lastErr`,
which is `nil` exactly when the wrapped option is `none`. -/
inductive SendError where
  | cloneFailed (inner : String) : SendError
  | retryExhausted (last : Option AttemptError) : SendError
deriving DecidableEq, Repr

/-- Message text of a `ReqErrCause`.  The `Error()` renderings of the
library's own error types live outside the embedded files, so they are
modelled as the inner message. -/
def ReqErrCause.msg : ReqErrCause → String
  | ReqErrCause.decodeFailure m => m
  | ReqErrCause.apiErr e => e.message
  | ReqErrCause.noCause => ""

/-- The string `err.Error()` yields for an attempt error, following the
`fmt.Errorf` format strings in `client.go`; for error types declared
outside the embedded files the rendering is modelled as the carried
message. -/
def AttemptError.errorMsg : AttemptError → String
  | AttemptError.transportFailed m => "failed to send request: " ++ m
  | AttemptError.emptyBody => "empty response body"
  | AttemptError.readFailed m => "failed to read response body: " ++ m
  | AttemptError.apiErrorMsg m => "API error: " ++ m
  | AttemptError.requestError _ c => c.msg
  | AttemptError.apiError e => e.message
  | AttemptError.decodeError m => m

/-! Retry controller (`sendRequest`, `shouldRetry`, and the backoff
constants of `client.go`). -/

def maxRetries : Nat := 3

/-- `initialBackoff = 1 * time.Second`, in nanoseconds (a `time.Duration`
is a count of nanoseconds). -/
def initialBackoffNs : ℚ := 1000000000

def retryableErrors : List String :=
  ["Overloaded", "Internal Server Error", "Provider returned error"]

/-- Substring containment, the semantics of `strings.Contains`. -/
def listContainsSub (s sub : List Char) : Bool :=
  (List.range (s.length + 1)).any fun i => (s.drop i).take sub.length == sub

/-- `strings.Contains(s, sub)`. -/
def strContains (s sub : String) : Bool :=
  listContainsSub s.toList sub.toList

/-- `shouldRetry`: false on a nil error, else true iff the error's message
contains one of the known transient-failure substrings. -/
def shouldRetry (err : Option String) : Bool :=
  match err with
  | none => false
  | some msg => retryableErrors.any fun r => strContains msg r

/-- The jitter factor `rand.Float64()*0.5 + 0.5`, as a function of the
random draw `u ∈ [0,1)`.  Float64 arithmetic is modelled by exact
rationals. -/
def jitter (u : ℚ) : ℚ := u * (1/2) + 1/2

/-- `float64(initialBackoff) * math.Pow(2, float64(attempt-1))`. -/
def backoffBase (attempt : Nat) : ℚ := initialBackoffNs * 2 ^ (attempt - 1)

/-- The sleep before a retry: `time.Duration(backoff * jitter)` truncates
the (nonnegative) float to whole nanoseconds. -/
def sleepNs (attempt : Nat) (u : ℚ) : Int :=
  ⌊backoffBase attempt * jitter u⌋

/-- Observable trace of one `sendRequest` call: the sleeps performed (in
nanoseconds), the number of `doRequest` attempts made, and the final result
(`none` = success). -/
structure SendTrace where
  sleeps : List Int
  attempts : Nat
  result : Option SendError
deriving DecidableEq, Repr

/-- The retry loop of `sendRequest`, with `remaining` attempts left out of
`maxRetries + 1`.  Per attempt: if it is a retry, sleep with fresh jitter
and clone the request (a clone failure returns immediately); then call
`doRequest` (the oracle `doResult`).  After the loop the code returns
`fmt.Errorf(..., lastErr)` — and `lastErr` is never assigned (the
assignment is commented out in the source), so the wrapped cause is `none`. -/
def sendLoop (doResult : Nat → Option AttemptError) (rand : Nat → ℚ)
    (clone : Nat → Option String) : Nat → Nat → SendTrace
  | _, 0 => ⟨[], 0, some (SendError.retryExhausted none)⟩
  | attempt, remaining + 1 =>
    let preSleeps : List Int :=
      if attempt = 0 then [] else [sleepNs attempt (rand (attempt - 1))]
    let cloneErr : Option String := if attempt = 0 then none else clone attempt
    match cloneErr with
    | some m => ⟨preSleeps, 0, some (SendError.cloneFailed m)⟩
    | none =>
      match doResult attempt with
      | none => ⟨preSleeps, 1, none⟩
      | some _ =>
        let rest := sendLoop doResult rand clone (attempt + 1) remaining
        ⟨preSleeps ++ rest.sleeps, 1 + rest.attempts, rest.result⟩

/-- `(c *Client) sendRequest`, abstracted over the per-attempt outcome of
`c.doRequest` (`doResult`), the random source (`rand`, the sequence of
`rand.Float64()` draws), and the per-attempt outcome of `cloneRequest`
(`clone`). -/
def sendRequest (doResult : Nat → Option AttemptError) (rand : Nat → ℚ)
    (clone : Nat → Option String) : SendTrace :=
  sendLoop doResult rand clone 0 (maxRetries + 1)

/-! Header policy and transport executor (`doRequest`, `setCommonHeaders`,
`handleErrorResp`).  `http.Header` is a map written and read with
consistently-spelled keys in the source, modelled as a total function from
key to value, with `""` for an unset key (`Header.Get` of a missing key). -/

def Header : Type := String → String

/-- `req.Header.Get(key)`: the stored value, `""` when unset. -/
def headerGet (h : Header) (key : String) : String := h key

/-- `req.Header.Set(key, value)`: replaces the value under the key. -/
def headerSet (h : Header) (key value : String) : Header :=
  fun k => if k = key then value else h k

/-- The fields of `ClientConfig` that `client.go` reads. -/
structure ClientConfig where
  baseURL : String
  authToken : String
  xTitle : String
  httpReferer : String

/-- `(c *Client) setCommonHeaders`: attribution headers and the bearer
authorization header. -/
def setCommonHeaders (cfg : ClientConfig) (h : Header) : Header :=
  headerSet
    (headerSet (headerSet h "HTTP-Referer" cfg.httpReferer) "X-Title" cfg.xTitle)
    "Authorization" ("Bearer " ++ cfg.authToken)

/-- The header phase at the top of `doRequest`: set `Accept`, default
`Content-Type` to JSON only when the caller left it unset (the upload paths
need `multipart/form-data` preserved), then `setCommonHeaders`. -/
def applyRequestHeaders (cfg : ClientConfig) (h : Header) : Header :=
  let h1 := headerSet h "Accept" "application/json; charset=utf-8"
  let ct := headerGet h1 "Content-Type"
  let h2 :=
    if ct = "" then headerSet h1 "Content-Type" "application/json; charset=utf-8" else h1
  setCommonHeaders cfg h2

/-- An HTTP response as the classifier sees it. -/
structure HttpResponse where
  statusCode : Nat
  body : BodyState

/-- Outcome of `c.config.HTTPClient.Do(req)`: a transport-level failure or
a response. -/
inductive TransportResult where
  | failed (msg : String) : TransportResult
  | resp (r : HttpResponse) : TransportResult

/-- The caller's destination `v any` in `decodeResponse`: `nil`, a
`*string`, or a structured destination whose `encoding/json` decoder for
this shape is the oracle `dec` (`none` = decode succeeds). -/
inductive Target where
  | tNil : Target
  | tString : Target
  | tStruct (dec : Option Json → Option String) : Target

/-- `decodeResponse(body, v)`: `nil` destination succeeds vacuously, a
`*string` destination receives the raw bytes (reading an in-memory buffer
cannot fail), a structured destination runs the JSON decoder. -/
def decodeResponse (body : Option Json) (v : Target) : Option AttemptError :=
  match v with
  | Target.tNil => none
  | Target.tString => none
  | Target.tStruct dec => (dec body).map AttemptError.decodeError

/-- `(c *Client) handleErrorResp`: decode the body as `ErrorResponse`; on a
decode error or a missing error object return a `RequestError` carrying the
transport status code and the available cause; otherwise return the
`*APIError` with its `HTTPStatusCode` filled in from the response. -/
def handleErrorResp (r : HttpResponse) : AttemptError :=
  let dec := unmarshalErrorResponse r.body
  match dec.1, dec.2.error with
  | some _, some e => AttemptError.requestError r.statusCode (ReqErrCause.apiErr e)
  | some d, none => AttemptError.requestError r.statusCode (ReqErrCause.decodeFailure d)
  | none, none => AttemptError.requestError r.statusCode ReqErrCause.noCause
  | none, some e => AttemptError.apiError { e with httpStatusCode := r.statusCode }

/-- The post-header part of `doRequest`: dispatch, route any non-200 status
through `handleErrorResp`, and on a 200 read the body, surface an embedded
error object with a non-empty message, else decode into the destination. -/
def doRequestBody (tr : TransportResult) (v : Target) : Option AttemptError :=
  match tr with
  | TransportResult.failed m => some (AttemptError.transportFailed m)
  | TransportResult.resp r =>
    if r.statusCode ≠ 200 then some (handleErrorResp r)
    else
      match r.body with
      | BodyState.nilBody => some AttemptError.emptyBody
      | BodyState.unreadable m => some (AttemptError.readFailed m)
      | BodyState.content j =>
        let dec := unmarshalErrorResponse (BodyState.content j)
        match dec.1, dec.2.error with
        | none, some e =>
          if e.message ≠ "" then some (AttemptError.apiErrorMsg e.message)
          else decodeResponse j v
        | _, _ => decodeResponse j v

/-- `(c *Client) doRequest`: the headers actually sent and the result of
the attempt (`none` = success). -/
def doRequest (cfg : ClientConfig) (h : Header) (tr : TransportResult)
    (v : Target) : Header × Option AttemptError :=
  (applyRequestHeaders cfg h, doRequestBody tr v)

/-! `CreateChatCompletion` (`chat.go`).  The wrapper-model table and the
model-support predicate live outside the embedded files and are parameters;
the request builder, `sendRequest` outcome, decoded response and
`json.MarshalIndent` are oracles. -/

/-- The fields of `ChatCompletionRequest` that `chat.go` reads or writes. -/
structure ChatCompletionRequest where
  model : String
  stream : Bool
deriving DecidableEq, Repr

/-- Placeholder for the decoded `ChatCompletionResponse`; `chat.go` never
inspects its fields. -/
structure ChatCompletionResponse where
  id : String
deriving DecidableEq, Repr

/-- Go map read `wrapperModels[request.Model]`: the mapped value, or the
zero value `""` when the key is absent. -/
def mapLookup (table : List (String × String)) (key : String) : String :=
  ((table.find? fun p => p.1 = key).map fun p => p.2).getD ""

/-- How a `CreateChatCompletion` call ends. -/
inductive ChatOutcome where
  | errStreamNotSupported : ChatOutcome
  | errUnsupportedModel : ChatOutcome
  | buildFailed (msg : String) : ChatOutcome
  | sendFailed (e : SendError) : ChatOutcome
  | panicked (msg : String) : ChatOutcome
  | ok : ChatOutcome
deriving DecidableEq, Repr

/-- Observable trace of a `CreateChatCompletion` call: the request object
as the caller sees it afterwards (it is passed by pointer and mutated), the
payload value handed to the request builder (if reached), what was printed
to standard output, and the outcome. -/
structure ChatCallTrace where
  finalRequest : ChatCompletionRequest
  payloadBuilt : Option ChatCompletionRequest
  printed : Option String
  outcome : ChatOutcome
deriving DecidableEq, Repr

/-- `(c *Client) CreateChatCompletion`: reject streaming; overwrite
`request.Model` through the wrapper-model table; check model support; build
the request from the (mutated) request value; send; then re-serialize the
decoded response with `json.MarshalIndent` — panicking if that fails — and
print it to standard output. -/
def createChatCompletion (wrapperModels : List (String × String))
    (checkSupportsModel : String → Bool) (buildErr : Option String)
    (sendResult : Option SendError) (decoded : ChatCompletionResponse)
    (marshalIndent : ChatCompletionResponse → Except String String)
    (request : ChatCompletionRequest) : ChatCallTrace :=
  if request.stream then
    ⟨request, none, none, ChatOutcome.errStreamNotSupported⟩
  else
    let request2 := { request with model := mapLookup wrapperModels request.model }
    if ¬ checkSupportsModel request2.model then
      ⟨request2, none, none, ChatOutcome.errUnsupportedModel⟩
    else
      match buildErr with
      | some m => ⟨request2, some request2, none, ChatOutcome.buildFailed m⟩
      | none =>
        match sendResult with
        | some e => ⟨request2, some request2, none, ChatOutcome.sendFailed e⟩
        | none =>
          match marshalIndent decoded with
          | Except.error m => ⟨request2, some request2, none, ChatOutcome.panicked m⟩
          | Except.ok s => ⟨request2, some request2, some s, ChatOutcome.ok⟩

/-! Theorems. -/

/-- When every attempt fails, the loop performs one attempt per unit of
remaining budget and ends with `retryExhausted none` — the never-assigned
`lastErr`. -/
lemma sendLoop_all_fail (doResult : Nat → Option AttemptError) (rand : Nat → ℚ)
    (attempt remaining : Nat) (h : ∀ k, (doResult k).isSome = true) :
    (sendLoop doResult rand (fun _ => none) attempt remaining).attempts = remaining ∧
    (sendLoop doResult rand (fun _ => none) attempt remaining).result
      = some (SendError.retryExhausted none) := by
  induction remaining generalizing attempt with
  | zero => exact ⟨rfl, rfl⟩
  | succ n ih =>
    obtain ⟨e, he⟩ := Option.isSome_iff_exists.mp (h attempt)
    have hrest := ih (attempt + 1)
    simp only [sendLoop, he, ite_self]
    exact ⟨by simp [hrest.1]; omega, hrest.2⟩

/-- C1: when the transport or classifier fails on every attempt,
`sendRequest` makes exactly `maxRetries + 1` attempts, but the
retry-exhaustion error it returns wraps a nil cause (`none`), because the
`lastErr = err` assignment in the loop is commented out: the claim's
"never a nil/empty cause" does not hold on the code. -/
theorem sendRequest_exhaustion_wraps_nil_cause (doResult : Nat → Option AttemptError)
    (rand : Nat → ℚ) (h : ∀ k, (doResult k).isSome = true) :
    (sendRequest doResult rand (fun _ => none)).attempts = maxRetries + 1 ∧
    (sendRequest doResult rand (fun _ => none)).result
      = some (SendError.retryExhausted none) :=
  sendLoop_all_fail doResult rand 0 (maxRetries + 1) h

/-- Witness for C1: a transport failing every attempt with `API error: boom`
yields 4 attempts and a retry-exhaustion result wrapping `none`. -/
theorem sendRequest_exhaustion_wraps_nil_cause_witness :
    (sendRequest (fun _ => some (AttemptError.apiErrorMsg "boom")) (fun _ => 0)
        (fun _ => none)).attempts = maxRetries + 1 ∧
    (sendRequest (fun _ => some (AttemptError.apiErrorMsg "boom")) (fun _ => 0)
        (fun _ => none)).result = some (SendError.retryExhausted none) :=
  sendRequest_exhaustion_wraps_nil_cause _ _ (fun _ => rfl)

/-- C2: the retry loop never consults `shouldRetry` (the call site is
commented out): two runs whose attempts fail with a transient error and a
non-transient error respectively produce identical traces, and both retry
up to the bound. -/
theorem sendRequest_ignores_shouldRetry (e1 e2 : AttemptError) (rand : Nat → ℚ)
    (_h1 : shouldRetry (some e1.errorMsg) = true)
    (_h2 : shouldRetry (some e2.errorMsg) = false) :
    sendRequest (fun _ => some e1) rand (fun _ => none)
      = sendRequest (fun _ => some e2) rand (fun _ => none) ∧
    (sendRequest (fun _ => some e1) rand (fun _ => none)).attempts = maxRetries + 1 :=
  ⟨rfl, rfl⟩

/-- Witness for C2: `Overloaded` is transient, a malformed-request message
is not, yet the retry traces coincide. -/
theorem sendRequest_ignores_shouldRetry_witness :
    shouldRetry (some (AttemptError.transportFailed "Overloaded").errorMsg) = true ∧
    shouldRetry (some (AttemptError.apiErrorMsg "bad request").errorMsg) = false ∧
    (sendRequest (fun _ => some (AttemptError.transportFailed "Overloaded")) (fun _ => 0)
        (fun _ => none)
      = sendRequest (fun _ => some (AttemptError.apiErrorMsg "bad request")) (fun _ => 0)
        (fun _ => none) ∧
    (sendRequest (fun _ => some (AttemptError.transportFailed "Overloaded")) (fun _ => 0)
        (fun _ => none)).attempts = maxRetries + 1) :=
  ⟨by decide, by decide,
    sendRequest_ignores_shouldRetry _ _ _ (by decide) (by decide)⟩

/-- C3: the code's jitter factor `rand.Float64()*0.5 + 0.5` lies in
`[0.5, 1.0)` for every draw `u ∈ [0, 1)` — it can never reach the upper
half `[1.0, 1.5)` of the claimed interval `[0.5, 1.5)`. -/
theorem jitter_stays_below_one (u : ℚ) (h0 : 0 ≤ u) (h1 : u < 1) :
    1/2 ≤ jitter u ∧ jitter u < 1 := by
  unfold jitter
  constructor <;> nlinarith

/-- Witness for C3: the draw `u = 9/10` gives jitter `0.95`, inside
`[0.5, 1)`. -/
theorem jitter_stays_below_one_witness :
    1/2 ≤ jitter (9/10) ∧ jitter (9/10) < 1 :=
  jitter_stays_below_one (9/10) (by norm_num) (by norm_num)

/-- C8: with the caller's context cancelled from the first backoff onward
(every later transport call fails immediately with `context canceled`),
the loop still sleeps before each retry (`maxRetries` sleeps), completes
all `maxRetries + 1` attempts, and returns the retry-exhaustion error —
not a cancellation error: `time.Sleep` is not context-aware and nothing
checks the context in the loop. -/
theorem sendRequest_ignores_cancellation :
    (sendRequest (fun k => if k = 0 then some (AttemptError.apiErrorMsg "boom")
        else some (AttemptError.transportFailed "context canceled"))
      (fun _ => 0) (fun _ => none)).attempts = maxRetries + 1 ∧
    (sendRequest (fun k => if k = 0 then some (AttemptError.apiErrorMsg "boom")
        else some (AttemptError.transportFailed "context canceled"))
      (fun _ => 0) (fun _ => none)).result = some (SendError.retryExhausted none) ∧
    (sendRequest (fun k => if k = 0 then some (AttemptError.apiErrorMsg "boom")
        else some (AttemptError.transportFailed "context canceled"))
      (fun _ => 0) (fun _ => none)).sleeps.length = maxRetries :=
  ⟨rfl, rfl, rfl⟩

/-- The classifier only ever returns a `RequestError` (with the response's
status code) or the embedded `*APIError`. -/
lemma handleErrorResp_shape (r : HttpResponse) :
    (∃ c, handleErrorResp r = AttemptError.requestError r.statusCode c) ∨
    (∃ e, handleErrorResp r = AttemptError.apiError e) := by
  unfold handleErrorResp
  rcases hu : unmarshalErrorResponse r.body with ⟨d, er⟩
  rcases d with _ | d <;> rcases her : er.error with _ | e <;> simp [her]

/-- On a 200 response the executor only ever succeeds or fails with one of
the success-path errors, never with a classifier error. -/
lemma doRequestBody_200_shape (r : HttpResponse) (v : Target)
    (hs : r.statusCode = 200) :
    doRequestBody (TransportResult.resp r) v = none ∨
    (∃ m, doRequestBody (TransportResult.resp r) v
      = some (AttemptError.apiErrorMsg m)) ∨
    doRequestBody (TransportResult.resp r) v = some AttemptError.emptyBody ∨
    (∃ m, doRequestBody (TransportResult.resp r) v
      = some (AttemptError.readFailed m)) ∨
    (∃ m, doRequestBody (TransportResult.resp r) v
      = some (AttemptError.decodeError m)) := by
  rcases r with ⟨sc, body⟩
  subst hs
  rcases body with _ | m | j
  · simp [doRequestBody]
  · simp [doRequestBody]
  · simp only [doRequestBody, ne_eq, reduceIte]
    rcases hu : unmarshalErrorResponse (BodyState.content j) with ⟨d, er⟩
    have hdec : decodeResponse j v = none ∨
        ∃ m, decodeResponse j v = some (AttemptError.decodeError m) := by
      rcases v with _ | _ | dec
      · simp [decodeResponse]
      · simp [decodeResponse]
      · rcases hd : dec j with _ | m <;> simp [decodeResponse, hd]
    rcases d with _ | d <;> rcases her : er.error with _ | e
    · rcases hdec with hdec | ⟨m, hdec⟩ <;> simp [hu, her, hdec]
    · by_cases hm : e.message = ""
      · rcases hdec with hdec | ⟨m, hdec⟩ <;> simp [hu, her, hdec, hm]
      · simp [hu, her, hm]
    · rcases hdec with hdec | ⟨m, hdec⟩ <;> simp [hu, her, hdec]
    · rcases hdec with hdec | ⟨m, hdec⟩ <;> simp [hu, her, hdec]

/-- C5: the executor routes a response through the error-classification
path `handleErrorResp` exactly when its status code is not 200 — other
2xx codes included — and treats exactly status 200 as the success
candidate. -/
theorem doRequest_success_iff_status_200 (r : HttpResponse) (v : Target) :
    doRequestBody (TransportResult.resp r) v = some (handleErrorResp r) ↔
      r.statusCode ≠ 200 := by
  constructor
  · intro heq hs
    rcases handleErrorResp_shape r with ⟨c, hh⟩ | ⟨e, hh⟩ <;>
      rcases doRequestBody_200_shape r v hs with h | ⟨m, h⟩ | h | ⟨m, h⟩ | ⟨m, h⟩ <;>
        rw [h, hh] at heq <;> simp at heq
  · intro hs
    simp [doRequestBody, hs]

/-- Witness for C5: a 201 response is routed through `handleErrorResp`
exactly like a failing status. -/
theorem doRequest_success_iff_status_200_witness :
    doRequestBody (TransportResult.resp ⟨201, BodyState.content none⟩) Target.tNil
      = some (handleErrorResp ⟨201, BodyState.content none⟩) ∧ (201 : Nat) ≠ 200 :=
  ⟨(doRequest_success_iff_status_200 ⟨201, BodyState.content none⟩ Target.tNil).mpr
      (by decide),
    by decide⟩

/-- C4: a 200 response whose body decodes to an error object with a
non-empty message is returned as an `API error:` failure, for every caller
destination shape — the body is never decoded into the destination as a
success. -/
theorem doRequest_200_embedded_error_fails (j : Json) (v : Target) (e : APIError)
    (h1 : (unmarshalErrorResponse (BodyState.content (some j))).1 = none)
    (h2 : (unmarshalErrorResponse (BodyState.content (some j))).2.error = some e)
    (h3 : e.message ≠ "") :
    doRequestBody (TransportResult.resp ⟨200, BodyState.content (some j)⟩) v
      = some (AttemptError.apiErrorMsg e.message) := by
  simp [doRequestBody, h1, h2, h3]

/-- Witness for C4: status 200 with body
`\x7b"error":\x7b"message":"boom"\x7d\x7d` yields `API error: boom` even
though the caller's decoder would have succeeded. -/
theorem doRequest_200_embedded_error_fails_witness :
    doRequestBody (TransportResult.resp ⟨200, BodyState.content (some (Json.obj
        [("error", Json.obj [("message", Json.str "boom")])]))⟩)
      (Target.tStruct (fun _ => none))
      = some (AttemptError.apiErrorMsg "boom") :=
  doRequest_200_embedded_error_fails _ _ ⟨"boom", 0⟩ (by decide) (by decide) (by decide)

/-- C6: whenever the body yields no error object (absent, unparseable, or
parseable without one), the classifier returns a `RequestError` carrying
the transport status code, with the raw decode failure as inner cause when
one occurred; being a total function, it cannot panic. -/
theorem handleErrorResp_degrades_gracefully (r : HttpResponse)
    (h : (unmarshalErrorResponse r.body).2.error = none) :
    handleErrorResp r = AttemptError.requestError r.statusCode
      (match (unmarshalErrorResponse r.body).1 with
       | some d => ReqErrCause.decodeFailure d
       | none => ReqErrCause.noCause) := by
  unfold handleErrorResp
  rcases hu : unmarshalErrorResponse r.body with ⟨d, er⟩
  rw [hu] at h
  simp only at h
  rcases d with _ | d <;> simp [h]

/-- Witness for C6: a 500 response with an unparseable body produces a
`RequestError` carrying status 500 and the decode failure. -/
theorem handleErrorResp_degrades_gracefully_witness :
    handleErrorResp ⟨500, BodyState.content none⟩
      = AttemptError.requestError 500 (ReqErrCause.decodeFailure "invalid JSON") :=
  handleErrorResp_degrades_gracefully ⟨500, BodyState.content none⟩ (by decide)

/-- C7: the header phase leaves a caller-set non-empty `Content-Type`
untouched (only an unset one receives the JSON default) while always
setting `Accept`, the attribution headers, and the bearer `Authorization`
header. -/
theorem headers_preserve_preset_content_type (cfg : ClientConfig) (h : Header) :
    (headerGet h "Content-Type" ≠ "" →
      headerGet (applyRequestHeaders cfg h) "Content-Type"
        = headerGet h "Content-Type") ∧
    (headerGet h "Content-Type" = "" →
      headerGet (applyRequestHeaders cfg h) "Content-Type"
        = "application/json; charset=utf-8") ∧
    headerGet (applyRequestHeaders cfg h) "Accept"
      = "application/json; charset=utf-8" ∧
    headerGet (applyRequestHeaders cfg h) "HTTP-Referer" = cfg.httpReferer ∧
    headerGet (applyRequestHeaders cfg h) "X-Title" = cfg.xTitle ∧
    headerGet (applyRequestHeaders cfg h) "Authorization"
      = "Bearer " ++ cfg.authToken := by
  unfold applyRequestHeaders setCommonHeaders headerGet headerSet
  by_cases hct : h "Content-Type" = "" <;> simp [hct]

/-- Witness for C7: a pre-set `multipart/form-data` survives the header
phase and the bearer header is still added. -/
theorem headers_preserve_preset_content_type_witness :
    headerGet (applyRequestHeaders ⟨"https://openrouter.ai/api/v1", "tok", "title", "ref"⟩
        (headerSet (fun _ => "") "Content-Type" "multipart/form-data")) "Content-Type"
      = "multipart/form-data" ∧
    headerGet (applyRequestHeaders ⟨"https://openrouter.ai/api/v1", "tok", "title", "ref"⟩
        (headerSet (fun _ => "") "Content-Type" "multipart/form-data")) "Authorization"
      = "Bearer tok" := by
  have hmain := headers_preserve_preset_content_type
    ⟨"https://openrouter.ai/api/v1", "tok", "title", "ref"⟩
    (headerSet (fun _ => "") "Content-Type" "multipart/form-data")
  exact ⟨(hmain.1 (by decide)).trans (by decide), hmain.2.2.2.2.2⟩

/-- C9: on every non-streaming call, the caller's request object comes back
with `Model` overwritten by the wrapper-table lookup (the zero value `""`
when the model is absent from the table), the mutation happens before any
network activity (an unsupported looked-up model aborts with the request
already rewritten and nothing handed to the builder), and any payload that
does reach the builder carries the rewritten model. -/
theorem createChatCompletion_rewrites_model (table : List (String × String))
    (checkSupportsModel : String → Bool) (buildErr : Option String)
    (sendResult : Option SendError) (decoded : ChatCompletionResponse)
    (marshalIndent : ChatCompletionResponse → Except String String)
    (request : ChatCompletionRequest) (hstream : request.stream = false) :
    (createChatCompletion table checkSupportsModel buildErr sendResult decoded
        marshalIndent request).finalRequest
      = { request with model := mapLookup table request.model } ∧
    (∀ p, (createChatCompletion table checkSupportsModel buildErr sendResult decoded
        marshalIndent request).payloadBuilt = some p →
      p = { request with model := mapLookup table request.model }) ∧
    (checkSupportsModel (mapLookup table request.model) = false →
      (createChatCompletion table checkSupportsModel buildErr sendResult decoded
          marshalIndent request).outcome = ChatOutcome.errUnsupportedModel ∧
      (createChatCompletion table checkSupportsModel buildErr sendResult decoded
          marshalIndent request).payloadBuilt = none) ∧
    (table.find? (fun p => p.1 = request.model) = none →
      (createChatCompletion table checkSupportsModel buildErr sendResult decoded
          marshalIndent request).finalRequest.model = "") := by
  have hfinal : (createChatCompletion table checkSupportsModel buildErr sendResult
      decoded marshalIndent request).finalRequest
      = { request with model := mapLookup table request.model } := by
    rcases hsup : checkSupportsModel (mapLookup table request.model) with _ | _ <;>
      rcases buildErr with _ | m <;> rcases sendResult with _ | e <;>
        rcases hm : marshalIndent decoded with s | s <;>
          simp [createChatCompletion, hstream, hsup, hm]
  refine ⟨hfinal, ?_, ?_, ?_⟩
  · intro p hp
    rcases hsup : checkSupportsModel (mapLookup table request.model) with _ | _ <;>
      rcases buildErr with _ | m <;> rcases sendResult with _ | e <;>
        rcases hm : marshalIndent decoded with s | s <;>
          simp [createChatCompletion, hstream, hsup, hm] at hp <;> simp_all
  · intro hns
    rcases buildErr with _ | m <;> rcases sendResult with _ | e <;>
      rcases hm : marshalIndent decoded with s | s <;>
        simp [createChatCompletion, hstream, hns, hm]
  · intro hfind
    rw [hfinal]
    simp [mapLookup, hfind]

/-- Witness for C9: a model absent from the wrapper table is rewritten to
the zero value `""` before anything else happens. -/
theorem createChatCompletion_rewrites_model_witness :
    (createChatCompletion [("a", "b")] (fun _ => true) none none ⟨"id"⟩
        (fun _ => Except.ok "out") ⟨"claude", false⟩).finalRequest
      = ⟨"", false⟩ := by
  have hmain := (createChatCompletion_rewrites_model [("a", "b")] (fun _ => true)
    none none ⟨"id"⟩ (fun _ => Except.ok "out") ⟨"claude", false⟩ rfl).1
  rw [hmain]
  decide

/-- C10: once the send succeeds, the decoded response is re-serialized with
`json.MarshalIndent` and printed to standard output; a failing
re-serialization panics instead of returning an error. -/
theorem createChatCompletion_prints_or_panics (table : List (String × String))
    (checkSupportsModel : String → Bool) (decoded : ChatCompletionResponse)
    (marshalIndent : ChatCompletionResponse → Except String String)
    (request : ChatCompletionRequest) (hstream : request.stream = false)
    (hsup : checkSupportsModel (mapLookup table request.model) = true) :
    (∀ s, marshalIndent decoded = Except.ok s →
      (createChatCompletion table checkSupportsModel none none decoded
          marshalIndent request).outcome = ChatOutcome.ok ∧
      (createChatCompletion table checkSupportsModel none none decoded
          marshalIndent request).printed = some s) ∧
    (∀ m, marshalIndent decoded = Except.error m →
      (createChatCompletion table checkSupportsModel none none decoded
          marshalIndent request).outcome = ChatOutcome.panicked m ∧
      (createChatCompletion table checkSupportsModel none none decoded
          marshalIndent request).printed = none) := by
  constructor
  · intro s hs
    constructor <;> simp [createChatCompletion, hstream, hsup, hs]
  · intro m hm
    constructor <;> simp [createChatCompletion, hstream, hsup, hm]

/-- Witness for C10: a failing `MarshalIndent` after a successful call ends
in a panic, with nothing printed. -/
theorem createChatCompletion_prints_or_panics_witness :
    (createChatCompletion [] (fun _ => true) none none ⟨"id"⟩
        (fun _ => Except.error "marshal fail") ⟨"m", false⟩).outcome
      = ChatOutcome.panicked "marshal fail" ∧
    (createChatCompletion [] (fun _ => true) none none ⟨"id"⟩
        (fun _ => Except.error "marshal fail") ⟨"m", false⟩).printed = none :=
  (createChatCompletion_prints_or_panics [] (fun _ => true) ⟨"id"⟩
    (fun _ => Except.error "marshal fail") ⟨"m", false⟩ rfl rfl).2 "marshal fail" rfl

end OpenRouter
